import Mathlib

/-!
Verification development for the sharded gateway connection manager in
src/novus/api/gateway/gateway.py (the Novus repository).

Each Python construct relevant to the claims is shallowly embedded as an
executable Lean definition: byte buffers become lists of naturals, the
fallible external collaborators (zlib decompression, JSON parsing, close
code classification) become explicit function parameters, exceptions
become explicit outcome constructors, and the asyncio tasking structure
becomes transition systems or folds over event lists.
-/

namespace NovusGateway

/-! ## Wire-level data model -/

/-- Gateway opcodes used by gateway.py, from novus.enums.GatewayOpcode.
Only the tag identities matter for the control flow under study. -/
inductive GatewayOpcode
  | dispatch
  | heartbeat
  | identify
  | presence
  | resume
  | reconnect
  | request_members
  | invalidate_session
  | hello
  | heartbeat_ack
  deriving DecidableEq, Repr

/-- Shape of the `d` field of an incoming message as consumed by
message_handler: invalidate_session compares it with True, dispatch passes
it through opaquely. -/
inductive DPayload
  | pbool (b : Bool)
  | pdata (s : String)
  | pnull
  deriving DecidableEq, Repr

/-- The tuple returned by GatewayShard.receive (lines 460 to 465):
opcode, event name `t`, sequence `s`, payload `d`. -/
abbrev Msg := GatewayOpcode × Option String × Option Int × DPayload

/-- The zlib stream flush marker 00 00 FF FF checked against the tail of
the receive buffer (line 419). -/
def flushMarker : List Nat := [0x00, 0x00, 0xff, 0xff]

/-- Python slicing buffer[-4:] : the last four bytes of the buffer (the
whole buffer when it is shorter than four bytes). -/
def lastFour (b : List Nat) : List Nat := b.drop (b.length - 4)

/-- One frame read from the websocket (aiohttp WSMessage), as branched on
by receive (lines 386 to 421). -/
inductive WSFrame
  | binary (b : List Nat)
  | text (s : String)
  | werror
  | closing
  | close (code : Nat)
  | closed
  deriving DecidableEq, Repr

/-- Result of decoding plus json.loads on a completed message (lines 440
to 452): success, MemoryError, or any other exception. -/
inductive ParseOutcome
  | ok (m : Msg)
  | memErr
  | otherErr
  deriving DecidableEq, Repr

/-- How one call to receive ends: a parsed message, a plain None return,
a raised GatewayClose, a raised GatewayException (with its reconnect
flag), or any other exception propagating to the caller. -/
inductive RecvOutcome
  | msg (m : Msg)
  | noneRet
  | gatewayClose
  | gatewayExc (canReconnect : Bool)
  | otherExc
  deriving DecidableEq, Repr

/-- External collaborators of receive, abstracted as functions: the zlib
stream decompressor (none on failure), the decode plus json.loads stage
for binary and for text data, the close code to GatewayException mapping
(GatewayException.all_exceptions), and the reconnect flag of a default
constructed GatewayException. -/
structure WireEnv where
  decompress : List Nat → Option (List Nat)
  parseBytes : List Nat → ParseOutcome
  parseText : String → ParseOutcome
  codeReconnect : Nat → Bool
  defaultReconnect : Bool

/-- GatewayShard.receive, lines 374 to 465, for one frame read from the
socket. Takes the current receive buffer, returns the buffer as left by
the call together with the outcome. Every path of the Python loop body
returns or raises, so one frame read is one call.
Control flow that matters here:
- a binary frame is appended to the buffer (line 409);
- the message is complete only when the buffer tail equals the flush
  marker, or when the frame is not binary (lines 418 to 421);
- an incomplete message returns None (lines 422 to 423);
- decompression failure raises GatewayClose from inside the except block,
  skipping the buffer clear on line 437, so the buffer keeps its bytes;
- after successful decompression (or for a text frame) the buffer is
  cleared on line 437 before parsing;
- a MemoryError while parsing clears the buffer again and raises
  GatewayClose (lines 446 to 452); any other parse failure is not caught
  and propagates. -/
def receiveStep (env : WireEnv) (buffer : List Nat) (frame : WSFrame) :
    List Nat × RecvOutcome :=
  match frame with
  | .werror => (buffer, .noneRet)
  | .closing => (buffer, .gatewayClose)
  | .close code => (buffer, .gatewayExc (env.codeReconnect code))
  | .closed => (buffer, .gatewayExc env.defaultReconnect)
  | .binary b =>
      if lastFour (buffer ++ b) = flushMarker then
        match env.decompress (buffer ++ b) with
        | none => (buffer ++ b, .gatewayClose)
        | some dec =>
            match env.parseBytes dec with
            | .ok m => ([], .msg m)
            | .memErr => ([], .gatewayClose)
            | .otherErr => ([], .otherExc)
      else
        (buffer ++ b, .noneRet)
  | .text s =>
      match env.parseText s with
      | .ok m => ([], .msg m)
      | .memErr => ([], .gatewayClose)
      | .otherErr => ([], .otherExc)

/-- How the messages generator (lines 299 to 332) ends. -/
inductive MsgEnd
  | outOfInput
  | endedOnNone
  | endedSpawnedReconnect
  | endedOnError
  | raisedFatal
  deriving DecidableEq, Repr

/-- Observable behaviour of one run of the messages generator: the
messages yielded in order, how many inline reconnects were awaited
(GatewayClose handler, line 313), how many reconnect tasks were spawned
(GatewayException handler, line 319), and how the generator ended. -/
structure MessagesResult where
  yielded : List Msg
  inlineReconnects : Nat
  spawnedReconnects : Nat
  ending : MsgEnd
  deriving DecidableEq, Repr

/-- GatewayShard.messages, lines 299 to 332, driven by the list of
outcomes of the successive receive calls it makes:
- GatewayClose: await reconnect() inline, continue the loop;
- GatewayException with reconnect set: spawn a reconnect task, return;
- GatewayException without reconnect: re-raise to the caller;
- any other exception: log and return;
- receive returned None: return;
- a message: yield it and continue. -/
def messagesRun : List RecvOutcome → MessagesResult
  | [] => ⟨[], 0, 0, .outOfInput⟩
  | o :: os =>
      match o with
      | .gatewayClose =>
          let r := messagesRun os
          ⟨r.yielded, r.inlineReconnects + 1, r.spawnedReconnects, r.ending⟩
      | .gatewayExc true => ⟨[], 0, 1, .endedSpawnedReconnect⟩
      | .gatewayExc false => ⟨[], 0, 0, .raisedFatal⟩
      | .otherExc => ⟨[], 0, 0, .endedOnError⟩
      | .noneRet => ⟨[], 0, 0, .endedOnNone⟩
      | .msg m =>
          let r := messagesRun os
          ⟨m :: r.yielded, r.inlineReconnects, r.spawnedReconnects, r.ending⟩

/-! ## Session state and the connect path -/

/-- SessionState: the resume bookkeeping owned by one GatewayShard
(attributes sequence and session_id, lines 245 and 247). -/
structure SessionState where
  session_id : Option String
  sequence : Option Int
  deriving DecidableEq, Repr

/-- Which handshake command _connect sends under the identify semaphore
(lines 590 to 594), with the data the Resume command carries (lines 768
to 782: session_id and seq are read from the shard attributes). -/
inductive Handshake
  | identifyCmd
  | resumeCmd (session_id : Option String) (seq : Option Int)
  deriving DecidableEq, Repr

/-- Session and buffer effect of GatewayShard._connect, lines 495 to 594,
together with the handshake it sends:
- the receive buffer is cleared on entry (line 507);
- if the socket is still open, it is closed and reconnect is forced to
  True (lines 511 to 521);
- if reconnect is False, sequence is set to None (lines 524 to 525);
  session_id is not touched anywhere in _connect;
- under the identify semaphore, reconnect sends Resume with the stored
  session_id and sequence, otherwise Identify (lines 585 to 594). -/
def connectSession (reconnect socketOpen : Bool) (s : SessionState)
    (buffer : List Nat) : SessionState × List Nat × Handshake :=
  let r := reconnect || socketOpen
  let s' := if r then s else { s with sequence := none }
  let _ := buffer
  (s', [], if r then Handshake.resumeCmd s'.session_id s'.sequence
           else Handshake.identifyCmd)

/-! ## Heartbeat loop -/

/-- What happens inside the try block of one heartbeat attempt (lines 675
to 677): the send succeeds and an ack arrives in time, or the 10 second
wait_for expires, or the surrounding task is cancelled mid attempt, or
send raises because the socket is absent or closed. -/
inductive BeatEvent
  | ackOk
  | ackTimeout
  | taskCancelled
  | sendClosed
  deriving DecidableEq, Repr

/-- Python exception classes relevant to the heartbeat try block. -/
inductive PyExc
  | timeoutError
  | cancelledError
  | valueError
  deriving DecidableEq, Repr

/-- The exception each attempt event raises out of the try block:
asyncio.wait_for raises asyncio.TimeoutError when its timeout expires
(it converts the internal cancellation, so no CancelledError escapes on
a timeout); external cancellation raises CancelledError; send on an
absent or closed socket raises ValueError (lines 340 to 343). -/
def beatEventExc : BeatEvent → Option PyExc
  | .ackOk => none
  | .ackTimeout => some .timeoutError
  | .taskCancelled => some .cancelledError
  | .sendClosed => some .valueError

/-- How the inner attempt loop of GatewayShard.heartbeat ends, with the
number of reconnect tasks it scheduled. -/
inductive BeatResult
  | cycleDone (reconnects : Nat)
  | returnedReconnect (reconnects : Nat)
  | uncaughtError (reconnects : Nat)
  | outOfEvents
  deriving DecidableEq, Repr

/-- The inner `for beat_attempt in range(1000)` loop of
GatewayShard.heartbeat, lines 674 to 712, driven by the event of each
attempt. Its except clauses catch exactly asyncio.CancelledError (retry
while beat_attempt is at most 5, otherwise schedule one reconnect task
and return) and ValueError (schedule one reconnect task and return); an
exception matching neither clause propagates and kills the task. A
successful attempt breaks out of the loop. -/
def heartbeatAttemptLoop : Nat → List BeatEvent → BeatResult
  | n, [] => if 1000 ≤ n then .cycleDone 0 else .outOfEvents
  | n, e :: es =>
      if 1000 ≤ n then .cycleDone 0
      else
        match beatEventExc e with
        | none => .cycleDone 0
        | some .cancelledError =>
            if n ≤ 5 then heartbeatAttemptLoop (n + 1) es
            else .returnedReconnect 1
        | some .valueError => .returnedReconnect 1
        | some .timeoutError => .uncaughtError 0

/-! ## Identify permit (Handshake Coordinator) -/

/-- Position of one shard relative to the identify semaphore window in
_connect (lines 590 to 594): idle before reaching the semaphore, holding
between acquisition and release (the window in which Identify or Resume
is sent), sent after release. -/
inductive IdPhase
  | idle
  | holding
  | sent
  deriving DecidableEq, Repr

/-- Global state of the identify semaphore shared by the n shards of one
GatewayConnection (lines 145 to 162: one LoggingSemaphore passed to every
shard): remaining permits plus the phase of each shard. -/
structure PermitState (n : Nat) where
  permits : Nat
  phase : Fin n → IdPhase

/-- Initial state: the semaphore is created with value max_concurrency
(line 147) and no shard has reached it. -/
def initPermitState (n cap : Nat) : PermitState n := ⟨cap, fun _ => .idle⟩

/-- Interleaving semantics of the asyncio.Semaphore protocol used by the
identify window (async with, lines 77 to 84 and 590): a shard may acquire
only when a permit is available, releases when it leaves the window, and
may come back to the semaphore on a later reconnect. -/
inductive PermitStep (n : Nat) : PermitState n → PermitState n → Prop
  | acquire (s : PermitState n) (i : Fin n) :
      s.phase i = .idle → 0 < s.permits →
      PermitStep n s ⟨s.permits - 1, Function.update s.phase i .holding⟩
  | release (s : PermitState n) (i : Fin n) :
      s.phase i = .holding →
      PermitStep n s ⟨s.permits + 1, Function.update s.phase i .sent⟩
  | restart (s : PermitState n) (i : Fin n) :
      s.phase i = .sent →
      PermitStep n s ⟨s.permits, Function.update s.phase i .idle⟩

/-- Number of shards currently inside the acquire to release window. -/
def holdingCount {n : Nat} (s : PermitState n) : Nat :=
  ∑ i : Fin n, (if s.phase i = IdPhase.holding then 1 else 0)

/-! ## Message handler -/

/-- Shard attributes mutated by message_handler: the stored resume
cursor, the ready_received event and the heartbeat_received event. -/
structure HandlerState where
  sequence : Option Int
  readyReceived : Bool
  heartbeatReceived : Bool
  deriving DecidableEq, Repr

/-- How one run of message_handler ends. -/
inductive HandlerEnd
  | doneReading
  | returnedReconnect
  | returnedInvalidate (resumable : Bool)
  deriving DecidableEq, Repr

/-- Observable behaviour of message_handler: final attribute state, the
dispatch tasks spawned in spawn order (event name and sequence), every
assignment made to the sequence attribute in order, the number of
reconnect or connect tasks spawned, and how the loop ended. -/
structure HandlerResult where
  state : HandlerState
  dispatched : List (Option String × Option Int)
  seqWrites : List (Option Int)
  reconnectTasks : Nat
  ending : HandlerEnd
  deriving DecidableEq, Repr

/-- GatewayShard.message_handler, lines 822 to 896, folded over the
messages the generator yields:
- heartbeat_ack sets the heartbeat_received event (line 833);
- dispatch sets ready_received on READY or RESUMED, assigns the message
  sequence to the sequence attribute unconditionally (line 842), and
  spawns a dispatch task (lines 843 to 848);
- reconnect sets ready_received, spawns a reconnect task and returns;
- invalidate_session sets ready_received and spawns reconnect() when the
  payload is True, otherwise connect(reconnect=payload) after closing,
  then returns;
- anything else is printed and ignored. -/
def messageHandlerRun (st : HandlerState) : List Msg → HandlerResult
  | [] => ⟨st, [], [], 0, .doneReading⟩
  | (op, t, s, d) :: ms =>
      match op with
      | .heartbeat_ack =>
          messageHandlerRun { st with heartbeatReceived := true } ms
      | .dispatch =>
          let st' :=
            if t = some "READY" ∨ t = some "RESUMED" then
              { st with readyReceived := true }
            else st
          let st'' := { st' with sequence := s }
          let r := messageHandlerRun st'' ms
          { r with
              dispatched := (t, s) :: r.dispatched,
              seqWrites := s :: r.seqWrites }
      | .reconnect =>
          ⟨{ st with readyReceived := true }, [], [], 1, .returnedReconnect⟩
      | .invalidate_session =>
          let st' := { st with readyReceived := true }
          if d = DPayload.pbool true then
            ⟨st', [], [], 1, .returnedInvalidate true⟩
          else
            ⟨st', [], [], 1, .returnedInvalidate false⟩
      | _ => messageHandlerRun st ms

/-! ## Member chunk tracking -/

/-- A string keyed dictionary as an association list; assignment shadows
by consing, lookup takes the first binding. -/
def dictSet {α : Type} (l : List (String × α)) (k : String) (v : α) :
    List (String × α) := (k, v) :: l

/-- The three chunk tracking dictionaries of a GatewayShard (lines 250 to
252): nonce to request counter, nonce to accumulated members (member ids
here), and the set of nonces with a registered completion event. -/
structure ChunkState where
  chunkCounter : List (String × Nat)
  chunkGroups : List (String × List Nat)
  chunkEvents : List String
  deriving DecidableEq, Repr

/-- The request members payload built by chunk_guild (lines 748 to 758):
guild_id stringified, limit, then query when user_ids is None and the
stringified user_ids otherwise, and the nonce only when it is truthy. -/
structure ReqMembersData where
  guild_id : String
  limit : Nat
  query : Option String
  user_ids : Option (List String)
  nonce : Option String
  deriving DecidableEq, Repr

/-- Order sensitive actions chunk_guild performs. -/
inductive ChunkAction
  | registerNonce (nonce : String)
  | sendReqMembers (data : ReqMembersData)
  deriving DecidableEq, Repr

/-- Result of chunk_guild: the updated chunk dictionaries, the returned
awaitable completion event (identified by its nonce; none when no event
was created), and the action trace in program order. -/
structure ChunkGuildResult where
  state : ChunkState
  returnedEvent : Option String
  trace : List ChunkAction
  deriving DecidableEq, Repr

/-- Python truthiness of the optional nonce argument (`if nonce:`):
None and the empty string are falsy. -/
def nonceTruthy : Option String → Bool
  | none => false
  | some s => !(s == "")

/-- The request members payload exactly as chunk_guild assembles it
(lines 748 to 758): query is present only when user_ids is None, the
nonce field only when the nonce argument was truthy. -/
def reqData (guild_id : Nat) (query : String) (limit : Nat)
    (user_ids : Option (List Nat)) (nonce : Option String) :
    ReqMembersData :=
  { guild_id := toString guild_id
    limit := limit
    query := match user_ids with | none => some query | some _ => none
    user_ids := match user_ids with
      | none => none
      | some l => some (l.map toString)
    nonce := nonce }

/-- GatewayShard.chunk_guild, lines 736 to 766: builds the request
payload, and when the nonce is truthy registers the ChunkRequest (counter
0, fresh completion event, empty accumulator, lines 758 to 761) before
awaiting the send; returns the event, which is None when no nonce was
registered. -/
def chunkGuild (st : ChunkState) (guild_id : Nat) (query : String)
    (limit : Nat) (user_ids : Option (List Nat)) (nonce : Option String) :
    ChunkGuildResult :=
  match nonce with
  | some n =>
      if n = "" then
        ⟨st, none, [.sendReqMembers (reqData guild_id query limit user_ids none)]⟩
      else
        let st' : ChunkState :=
          { chunkCounter := dictSet st.chunkCounter n 0
            chunkGroups := dictSet st.chunkGroups n []
            chunkEvents := n :: st.chunkEvents }
        ⟨st', some n,
          [.registerNonce n,
           .sendReqMembers (reqData guild_id query limit user_ids (some n))]⟩
  | none => ⟨st, none, [.sendReqMembers (reqData guild_id query limit user_ids none)]⟩

/-! ## Shard liveness and manager wait -/

/-- The observable inputs of the GatewayShard.running property: whether
the heartbeat task exists and is done, whether the socket exists and is
closed, whether the message task exists and is done, and whether the
connecting event is set. -/
structure ShardStatus where
  heartbeatTaskDone : Option Bool
  socketClosed : Option Bool
  messageTaskDone : Option Bool
  connectingSet : Bool
  deriving DecidableEq, Repr

/-- GatewayShard.running, lines 264 to 297, translated check by check. -/
def shardRunning (s : ShardStatus) : Bool :=
  match s.heartbeatTaskDone with
  | none => true
  | some hd =>
      if hd = false then true
      else
        match s.socketClosed with
        | none => true
        | some c =>
            if c = false then true
            else
              match s.messageTaskDone with
              | none => true
              | some md =>
                  if md = false then true
                  else s.connectingSet

/-- The loop condition of GatewayConnection.wait (line 173): the wait
loop keeps sleeping exactly while any shard reports itself running. -/
def waitKeepsLooping (shards : List ShardStatus) : Bool :=
  shards.any shardRunning

/-! ## Shard creation -/

/-- Line 151 of GatewayConnection.connect:
`shard_ids = shard_ids or list(range(shard_count))` with Python
truthiness, under which None and the empty list both fall through to the
full range; the loop on line 152 then creates one GatewayShard per listed
id. -/
def orDefaultShardIds (shard_ids : Option (List Nat)) (shard_count : Nat) :
    List Nat :=
  match shard_ids with
  | none => List.range shard_count
  | some l => if l = [] then List.range shard_count else l

/-! ## Concrete example inputs -/

/-- A concrete wire environment: decompression is the identity and every
completed payload parses to a hello message. -/
def envEx : WireEnv :=
  { decompress := fun bs => some bs
    parseBytes := fun _ =>
      ParseOutcome.ok (GatewayOpcode.hello, none, none, DPayload.pnull)
    parseText := fun _ => ParseOutcome.otherErr
    codeReconnect := fun _ => true
    defaultReconnect := false }

/-- A wire environment whose zlib decompression always fails. -/
def envDecompressFail : WireEnv := { envEx with decompress := fun _ => none }

/-- A wire environment whose JSON parse stage fails with an exception
other than MemoryError (for example json.JSONDecodeError). -/
def envParseFail : WireEnv :=
  { envEx with parseBytes := fun _ => ParseOutcome.otherErr }

/-- Two dispatch messages whose wire sequence numbers arrive out of
order: 5 then 3. -/
def msgsOutOfOrder : List Msg :=
  [(GatewayOpcode.dispatch, some "A", some 5, DPayload.pnull),
   (GatewayOpcode.dispatch, some "B", some 3, DPayload.pnull)]

end NovusGateway

namespace NovusGateway

/-! ## Claims -/

/-- Claim C10: GatewayConnection.connect treats an explicitly empty
shard_ids list the same as None; in both cases one GatewayShard is
created for every index in the interval from 0 to shard_count. -/
theorem c10_empty_shard_ids_defaults (n : Nat) :
    orDefaultShardIds (some []) n = List.range n ∧
    orDefaultShardIds none n = List.range n ∧
    ∀ i, i ∈ orDefaultShardIds (some []) n ↔ i < n := by
  refine ⟨rfl, rfl, ?_⟩
  intro i
  simp [orDefaultShardIds]

/-- Claim C9: GatewayShard.running returns True for a shard that has
never begun connecting (heartbeat task, socket, or message task still
None), so GatewayConnection.wait keeps looping while any constructed
shard has not yet started and finished its lifecycle. -/
theorem c9_running_true_before_start (s : ShardStatus)
    (shards : List ShardStatus) (hmem : s ∈ shards)
    (hfresh : s.heartbeatTaskDone = none ∨ s.socketClosed = none ∨
      s.messageTaskDone = none) :
    shardRunning s = true ∧ waitKeepsLooping shards = true := by
  have hrun : ∀ s' : ShardStatus,
      (s'.heartbeatTaskDone = none ∨ s'.socketClosed = none ∨
        s'.messageTaskDone = none) → shardRunning s' = true := by
    intro s'
    obtain ⟨ht, so, mt, cn⟩ := s'
    revert cn mt so ht
    decide
  refine ⟨hrun s hfresh, ?_⟩
  simp only [waitKeepsLooping, List.any_eq_true]
  exact ⟨s, hmem, hrun s hfresh⟩

theorem c9_running_true_before_start_witness :
    shardRunning ⟨none, none, none, false⟩ = true ∧
    waitKeepsLooping [⟨none, none, none, false⟩] = true :=
  c9_running_true_before_start ⟨none, none, none, false⟩
    [⟨none, none, none, false⟩] (by decide) (Or.inl rfl)

/-- Claim C7: chunk_guild with a truthy nonce registers the ChunkRequest
(zero batch counter, empty accumulator, fresh completion event) before
sending the request members command and returns the completion event;
with no nonce it sends the command, registers nothing and returns None,
so such a caller is never blocked. -/
theorem c7_chunk_guild_registration (st : ChunkState) (gid : Nat)
    (q : String) (lim : Nat) (uids : Option (List Nat)) (n : String)
    (hn : n ≠ "") :
    (chunkGuild st gid q lim uids (some n)).state.chunkCounter.lookup n =
      some 0 ∧
    (chunkGuild st gid q lim uids (some n)).state.chunkGroups.lookup n =
      some ([] : List Nat) ∧
    n ∈ (chunkGuild st gid q lim uids (some n)).state.chunkEvents ∧
    (chunkGuild st gid q lim uids (some n)).returnedEvent = some n ∧
    (chunkGuild st gid q lim uids (some n)).trace =
      [ChunkAction.registerNonce n,
       ChunkAction.sendReqMembers (reqData gid q lim uids (some n))] ∧
    (reqData gid q lim uids (some n)).nonce = some n ∧
    (chunkGuild st gid q lim uids none).state = st ∧
    (chunkGuild st gid q lim uids none).returnedEvent = none ∧
    (chunkGuild st gid q lim uids none).trace =
      [ChunkAction.sendReqMembers (reqData gid q lim uids none)] ∧
    (reqData gid q lim uids none).nonce = none := by
  refine ⟨?_, ?_, ?_, ?_, ?_, rfl, rfl, rfl, rfl, rfl⟩
  · simp [chunkGuild, dictSet, hn, List.lookup]
  · simp [chunkGuild, dictSet, hn, List.lookup]
  · simp [chunkGuild, dictSet, hn]
  · simp [chunkGuild, hn]
  · simp [chunkGuild, hn]

theorem c7_chunk_guild_registration_witness :
    (chunkGuild ⟨[], [], []⟩ 7 "" 0 none (some "n1")).state.chunkCounter.lookup
      "n1" = some 0 ∧
    (chunkGuild ⟨[], [], []⟩ 7 "" 0 none (some "n1")).state.chunkGroups.lookup
      "n1" = some ([] : List Nat) ∧
    "n1" ∈ (chunkGuild ⟨[], [], []⟩ 7 "" 0 none (some "n1")).state.chunkEvents ∧
    (chunkGuild ⟨[], [], []⟩ 7 "" 0 none (some "n1")).returnedEvent =
      some "n1" ∧
    (chunkGuild ⟨[], [], []⟩ 7 "" 0 none (some "n1")).trace =
      [ChunkAction.registerNonce "n1",
       ChunkAction.sendReqMembers (reqData 7 "" 0 none (some "n1"))] ∧
    (reqData 7 "" 0 none (some "n1")).nonce = some "n1" ∧
    (chunkGuild ⟨[], [], []⟩ 7 "" 0 none none).state = ⟨[], [], []⟩ ∧
    (chunkGuild ⟨[], [], []⟩ 7 "" 0 none none).returnedEvent = none ∧
    (chunkGuild ⟨[], [], []⟩ 7 "" 0 none none).trace =
      [ChunkAction.sendReqMembers (reqData 7 "" 0 none none)] ∧
    (reqData 7 "" 0 none none).nonce = none :=
  c7_chunk_guild_registration ⟨[], [], []⟩ 7 "" 0 none "n1" (by decide)

/-- Claim C1 counterexample: a non-resumable connect (reconnect False,
socket closed) entered with a stored session clears only the sequence;
session_id keeps its old value instead of being cleared to absent before
the Identify is sent. -/
theorem c1_nonresumable_keeps_session_id :
    (connectSession false false ⟨some "abc", some 5⟩ []).1 =
      ⟨some "abc", none⟩ ∧
    (connectSession false false ⟨some "abc", some 5⟩ []).1.session_id ≠
      none ∧
    (connectSession false false ⟨some "abc", some 5⟩ []).2.2 =
      Handshake.identifyCmd := by
  refine ⟨rfl, by simp [connectSession], rfl⟩

/-- Claim C1 amended: a resumable connect (reconnect True, or forced
resumable because the socket was still open) preserves session_id and
sequence and sends Resume carrying the stored values; a non-resumable
connect clears sequence to absent before sending Identify but leaves
session_id unchanged (it is only replaced when the next READY arrives). -/
theorem c1_session_state_amended (s : SessionState) (buf : List Nat) :
    connectSession true false s buf =
      (s, [], Handshake.resumeCmd s.session_id s.sequence) ∧
    connectSession false true s buf =
      (s, [], Handshake.resumeCmd s.session_id s.sequence) ∧
    connectSession false false s buf =
      ({ s with sequence := none }, [], Handshake.identifyCmd) :=
  ⟨rfl, rfl, rfl⟩

/-- Claim C2 evidence: in heartbeat, the 10 second ack wait raises
asyncio.TimeoutError, which matches neither except clause (they catch
CancelledError and ValueError), so the very first missed ack kills the
heartbeat task with zero reconnect tasks scheduled, and six consecutive
missed acks never reach the retry or escalation logic. The send failure
clause of the claim does hold: a ValueError from a closed socket
schedules exactly one reconnect task. -/
theorem c2_ack_timeout_dies_unreconnected :
    heartbeatAttemptLoop 0 (List.replicate 6 BeatEvent.ackTimeout) =
      BeatResult.uncaughtError 0 ∧
    heartbeatAttemptLoop 0 [BeatEvent.ackTimeout] =
      BeatResult.uncaughtError 0 ∧
    heartbeatAttemptLoop 0 [BeatEvent.sendClosed] =
      BeatResult.returnedReconnect 1 := by
  decide

/-- Claim C4: for binary frames, a decoded message is emitted only when
the accumulated buffer ends in the flush marker 00 00 FF FF; a buffer not
ending in the marker makes receive return None with the bytes kept, the
same for every wire environment, so the buffer is neither decompressed
nor parsed. The buffer argument ranges over every accumulation point of
every sequence of complete and partial binary frames. -/
theorem c4_flush_marker_gates_emission (env : WireEnv)
    (buffer b : List Nat) :
    (lastFour (buffer ++ b) ≠ flushMarker →
      receiveStep env buffer (.binary b) =
        (buffer ++ b, RecvOutcome.noneRet)) ∧
    (∀ buf' m, receiveStep env buffer (.binary b) =
        (buf', RecvOutcome.msg m) →
      lastFour (buffer ++ b) = flushMarker) := by
  constructor
  · intro h
    simp [receiveStep, h]
  · intro buf' m h
    by_contra hne
    simp [receiveStep, hne] at h

theorem c4_flush_marker_gates_emission_witness :
    lastFour ([] ++ [1, 2]) ≠ flushMarker ∧
    receiveStep envEx [] (WSFrame.binary [1, 2]) =
      ([] ++ [1, 2], RecvOutcome.noneRet) :=
  ⟨by decide, (c4_flush_marker_gates_emission envEx [] [1, 2]).1 (by decide)⟩

/-- Claim C8: a binary frame that does not complete a message makes
receive return None rather than keep reading, and the messages generator
then returns, ending the message handling loop of the shard. -/
theorem c8_incomplete_frame_ends_loop (env : WireEnv) (buffer b : List Nat)
    (h : lastFour (buffer ++ b) ≠ flushMarker) (os : List RecvOutcome) :
    receiveStep env buffer (.binary b) = (buffer ++ b, RecvOutcome.noneRet) ∧
    messagesRun (RecvOutcome.noneRet :: os) = ⟨[], 0, 0, MsgEnd.endedOnNone⟩ := by
  exact ⟨by simp [receiveStep, h], rfl⟩

theorem c8_incomplete_frame_ends_loop_witness :
    receiveStep envEx [] (WSFrame.binary [9]) =
      ([] ++ [9], RecvOutcome.noneRet) ∧
    messagesRun [RecvOutcome.noneRet] = ⟨[], 0, 0, MsgEnd.endedOnNone⟩ :=
  c8_incomplete_frame_ends_loop envEx [] [9] (by decide) []

/-- Claim C3 counterexample: with a completed buffer whose decompression
fails, receive raises GatewayClose but leaves the buffer bytes in place
(the clear on line 437 is skipped), contradicting the claim that receive
clears the buffer; and a JSON parse failure other than MemoryError
propagates as a generic exception, on which the messages loop logs and
returns with no reconnect, contradicting the claimed close-and-reconnect
handling. -/
theorem c3_corruption_counterexample :
    receiveStep envDecompressFail [] (WSFrame.binary flushMarker) =
      (flushMarker, RecvOutcome.gatewayClose) ∧
    flushMarker ≠ [] ∧
    receiveStep envParseFail [] (WSFrame.binary flushMarker) =
      ([], RecvOutcome.otherExc) ∧
    messagesRun [RecvOutcome.otherExc] =
      ⟨[], 0, 0, MsgEnd.endedOnError⟩ := by
  decide

/-- Claim C3 amended: on a completed buffer, a decompression failure
raises GatewayClose with the buffer left uncleared (it is cleared by the
reconnect that handles GatewayClose, which also keeps the session); a
MemoryError during decode or parse clears the buffer and raises
GatewayClose; any other parse failure clears the buffer but propagates as
a generic error, on which the messages loop terminates without
reconnecting. -/
theorem c3_corruption_handling_amended (env : WireEnv) (buffer b : List Nat)
    (hm : lastFour (buffer ++ b) = flushMarker) :
    (env.decompress (buffer ++ b) = none →
      receiveStep env buffer (.binary b) =
        (buffer ++ b, RecvOutcome.gatewayClose)) ∧
    (∀ dec, env.decompress (buffer ++ b) = some dec →
      env.parseBytes dec = ParseOutcome.memErr →
      receiveStep env buffer (.binary b) = ([], RecvOutcome.gatewayClose)) ∧
    (∀ dec, env.decompress (buffer ++ b) = some dec →
      env.parseBytes dec = ParseOutcome.otherErr →
      receiveStep env buffer (.binary b) = ([], RecvOutcome.otherExc)) ∧
    (∀ os, (messagesRun (RecvOutcome.gatewayClose :: os)).inlineReconnects =
        (messagesRun os).inlineReconnects + 1 ∧
      (messagesRun (RecvOutcome.gatewayClose :: os)).yielded =
        (messagesRun os).yielded ∧
      (messagesRun (RecvOutcome.gatewayClose :: os)).ending =
        (messagesRun os).ending) ∧
    (∀ os, messagesRun (RecvOutcome.otherExc :: os) =
      ⟨[], 0, 0, MsgEnd.endedOnError⟩) ∧
    (∀ s buf, connectSession true false s buf =
      (s, [], Handshake.resumeCmd s.session_id s.sequence)) := by
  refine ⟨?_, ?_, ?_, ?_, ?_, ?_⟩
  · intro hd
    simp [receiveStep, hm, hd]
  · intro dec hd hp
    simp [receiveStep, hm, hd, hp]
  · intro dec hd hp
    simp [receiveStep, hm, hd, hp]
  · intro os
    exact ⟨rfl, rfl, rfl⟩
  · intro os
    rfl
  · intro s buf
    rfl

theorem c3_corruption_handling_amended_witness :
    receiveStep envDecompressFail [] (WSFrame.binary flushMarker) =
      ([] ++ flushMarker, RecvOutcome.gatewayClose) :=
  (c3_corruption_handling_amended envDecompressFail [] flushMarker
    (by decide)).1 rfl

/-- Claim C6 counterexample: message_handler assigns the arriving
sequence to the stored sequence attribute unconditionally (line 842), so
when dispatches arrive with wire sequences 5 then 3 the stored resume
cursor is first 5 and is then overwritten with the older value 3. -/
theorem c6_sequence_overwritten_older :
    (messageHandlerRun ⟨none, false, false⟩
      [(GatewayOpcode.dispatch, some "A", some 5, DPayload.pnull)]
      ).state.sequence = some 5 ∧
    (messageHandlerRun ⟨none, false, false⟩ msgsOutOfOrder).state.sequence =
      some 3 ∧
    (messageHandlerRun ⟨none, false, false⟩ msgsOutOfOrder).seqWrites =
      [some 5, some 3] ∧
    (3 : Int) < 5 := by
  refine ⟨rfl, rfl, rfl, by decide⟩

/-- Claim C6 amended: within one shard the dispatch tasks are spawned in
wire arrival order, and the stored sequence attribute is overwritten with
the sequence of each arriving dispatch in that order; the stored cursor
is therefore monotone exactly when the wire delivers its sequence numbers
in nondecreasing order, and nothing prevents an older arriving value from
replacing a newer one. -/
theorem c6_dispatch_order_and_seq_writes (st : HandlerState)
    (msgs : List Msg)
    (hall : ∀ m ∈ msgs, m.1 = GatewayOpcode.dispatch) :
    (messageHandlerRun st msgs).dispatched =
      msgs.map (fun m => (m.2.1, m.2.2.1)) ∧
    (messageHandlerRun st msgs).seqWrites =
      msgs.map (fun m => m.2.2.1) ∧
    (List.Chain' (fun a b : Option Int =>
        ∀ x y, a = some x → b = some y → x ≤ y)
        (msgs.map (fun m => m.2.2.1)) →
      List.Chain' (fun a b : Option Int =>
        ∀ x y, a = some x → b = some y → x ≤ y)
        ((messageHandlerRun st msgs).seqWrites)) := by
  have key : ∀ (msgs : List Msg),
      (∀ m ∈ msgs, m.1 = GatewayOpcode.dispatch) → ∀ st : HandlerState,
      (messageHandlerRun st msgs).dispatched =
        msgs.map (fun m => (m.2.1, m.2.2.1)) ∧
      (messageHandlerRun st msgs).seqWrites =
        msgs.map (fun m => m.2.2.1) := by
    intro msgs
    induction msgs with
    | nil => intro _ st; exact ⟨rfl, rfl⟩
    | cons m ms ih =>
        intro h st
        obtain ⟨op, t, s, d⟩ := m
        have hop : op = GatewayOpcode.dispatch := h _ (List.mem_cons_self _ _)
        subst hop
        have ih' := ih (fun x hx => h x (List.mem_cons_of_mem _ hx))
        simp only [messageHandlerRun, List.map_cons]
        refine ⟨?_, ?_⟩
        · simp [ih' _ |>.1]
        · simp [ih' _ |>.2]
  refine ⟨(key msgs hall st).1, (key msgs hall st).2, ?_⟩
  intro hchain
  rw [(key msgs hall st).2]
  exact hchain

/-- Updating the phase of one shard changes the holding count by the
difference of the holding indicators at that shard. -/
lemma holdingSum_update {n : Nat} (f : Fin n → IdPhase) (i : Fin n)
    (v : IdPhase) :
    (∑ j : Fin n, if Function.update f i v j = IdPhase.holding then 1 else 0)
      + (if f i = IdPhase.holding then (1 : Nat) else 0)
    = (∑ j : Fin n, if f j = IdPhase.holding then 1 else 0)
      + (if v = IdPhase.holding then 1 else 0) := by
  classical
  have key : ∀ g : Fin n → IdPhase,
      (∑ j : Fin n, if g j = IdPhase.holding then (1 : Nat) else 0)
        = (if g i = IdPhase.holding then (1 : Nat) else 0)
          + ∑ j ∈ Finset.univ.erase i,
              (if g j = IdPhase.holding then 1 else 0) :=
    fun g => (Finset.add_sum_erase Finset.univ _ (Finset.mem_univ i)).symm
  rw [key (Function.update f i v), key f]
  have herase : (∑ j ∈ Finset.univ.erase i,
      (if Function.update f i v j = IdPhase.holding then (1 : Nat) else 0))
      = ∑ j ∈ Finset.univ.erase i,
          (if f j = IdPhase.holding then 1 else 0) := by
    refine Finset.sum_congr rfl ?_
    intro j hj
    rw [Function.update_noteq (Finset.ne_of_mem_erase hj)]
  rw [herase, Function.update_same]
  omega

/-- In every state reachable from the initial one, the number of shards
inside the identify window plus the permits left in the semaphore equals
the capacity the semaphore was created with. -/
lemma permit_invariant {n cap : Nat} (s : PermitState n)
    (h : Relation.ReflTransGen (PermitStep n) (initPermitState n cap) s) :
    holdingCount s + s.permits = cap := by
  induction h with
  | refl => simp [initPermitState, holdingCount]
  | tail hreach hstep ih =>
      cases hstep with
      | acquire i hid hpos =>
          rename_i b
          have hupd := holdingSum_update b.phase i IdPhase.holding
          rw [hid] at hupd
          rw [show (if IdPhase.idle = IdPhase.holding then (1 : Nat) else 0)
                = 0 from rfl,
              show (if IdPhase.holding = IdPhase.holding then (1 : Nat) else 0)
                = 1 from rfl] at hupd
          simp only [holdingCount] at ih ⊢
          omega
      | release i hhold =>
          rename_i b
          have hupd := holdingSum_update b.phase i IdPhase.sent
          rw [hhold] at hupd
          rw [show (if IdPhase.holding = IdPhase.holding then (1 : Nat) else 0)
                = 1 from rfl,
              show (if IdPhase.sent = IdPhase.holding then (1 : Nat) else 0)
                = 0 from rfl] at hupd
          simp only [holdingCount] at ih ⊢
          omega
      | restart i hsent =>
          rename_i b
          have hupd := holdingSum_update b.phase i IdPhase.idle
          rw [hsent] at hupd
          rw [show (if IdPhase.sent = IdPhase.holding then (1 : Nat) else 0)
                = 0 from rfl,
              show (if IdPhase.idle = IdPhase.holding then (1 : Nat) else 0)
                = 0 from rfl] at hupd
          simp only [holdingCount] at ih ⊢
          omega

/-- Claim C5: for every shard count and every identify permit capacity of
at least one, at most capacity many shards are simultaneously inside the
window between acquiring the identify permit and having sent Identify or
Resume, in every reachable interleaving of the shard tasks. -/
theorem c5_identify_permit_bound (n cap : Nat) (_hcap : 1 ≤ cap)
    (s : PermitState n)
    (h : Relation.ReflTransGen (PermitStep n) (initPermitState n cap) s) :
    holdingCount s ≤ cap := by
  have hinv := permit_invariant s h
  omega

theorem c5_identify_permit_bound_witness :
    holdingCount
      (⟨0, Function.update (fun _ => IdPhase.idle) (0 : Fin 2)
          IdPhase.holding⟩ : PermitState 2) ≤ 1 :=
  c5_identify_permit_bound 2 1 (by decide) _
    (Relation.ReflTransGen.single
      (PermitStep.acquire (initPermitState 2 1) 0 rfl (by decide)))

theorem c6_dispatch_order_and_seq_writes_witness :
    (messageHandlerRun ⟨none, false, false⟩ msgsOutOfOrder).dispatched =
      msgsOutOfOrder.map (fun m => (m.2.1, m.2.2.1)) ∧
    (messageHandlerRun ⟨none, false, false⟩ msgsOutOfOrder).seqWrites =
      msgsOutOfOrder.map (fun m => m.2.2.1) :=
  ⟨(c6_dispatch_order_and_seq_writes ⟨none, false, false⟩ msgsOutOfOrder
      (by decide)).1,
   (c6_dispatch_order_and_seq_writes ⟨none, false, false⟩ msgsOutOfOrder
      (by decide)).2.1⟩

end NovusGateway
